import Mathlib

set_option maxRecDepth 100000

/-!
Shallow embedding of the EasyReads backend (an Express + Mongoose CRUD
application) together with proofs about its admin-authorization gate,
book-request lifecycle, pagination clamping and AI-chat fallback.

Modelling conventions:

* JavaScript strings are Lean `String`s.  The JS string methods the code
  uses (`trim`, `toLowerCase`, `split`, `includes`) are re-implemented on
  `List Char` so that every definition reduces inside the kernel.
* JS numbers are modelled as `Int`; no claim under study depends on
  floating-point behaviour.  Dates are integer timestamps supplied through
  an explicit `now` argument; `publishDate` values are `(year, month, day)`
  triples compared lexicographically.
* A MongoDB collection is a `List` of documents.  `_id` values are strings
  and unique, so `findByIdAndUpdate` / `save` after `findById` are modelled
  by rewriting the matching element in place (`updateWhere`).
* Mongo `$regex` with the `i` option, as used by the search endpoints on
  plain user text, is modelled as case-insensitive literal substring
  containment.
* `req.user` is `Option User`; a JSON body field that may be absent is an
  `Option`.  A handler is a pure function from (identity, body/query,
  store) to a response, paired with the resulting store when it writes.
-/

namespace EasyReads

/-- JS `String.prototype.toLowerCase` on one character (ASCII `A`-`Z`). -/
def charLower (c : Char) : Char :=
  if c.toNat ≥ 65 ∧ c.toNat ≤ 90 then Char.ofNat (c.toNat + 32) else c

/-- JS `String.prototype.toLowerCase` (ASCII). -/
def jsToLower (s : String) : String := String.mk (s.data.map charLower)

/-- Whitespace characters relevant to JS `trim` for the inputs at hand. -/
def isWs (c : Char) : Bool := c = ' ' ∨ c = '\t' ∨ c = '\n' ∨ c = '\r'

/-- JS `String.prototype.trim`. -/
def jsTrim (s : String) : String :=
  String.mk (((s.data.dropWhile isWs).reverse.dropWhile isWs).reverse)

/-- Core of JS `String.prototype.split` with a one-character separator. -/
def splitCharAux (sep : Char) : List Char → List String → List Char → List String
  | [], acc, cur => acc ++ [String.mk cur.reverse]
  | c :: rest, acc, cur =>
    if c = sep then splitCharAux sep rest (acc ++ [String.mk cur.reverse]) []
    else splitCharAux sep rest acc (c :: cur)

/-- JS `String.prototype.split` with a one-character separator. -/
def jsSplit (s : String) (sep : Char) : List String := splitCharAux sep s.data [] []

/-- String emptiness without going through byte positions. -/
def strEmpty (s : String) : Bool := s.data.isEmpty

/-- JS string falsiness for an optional value (`undefined`, `null`, `''`). -/
def optFalsy (s : Option String) : Bool :=
  match s with
  | none => true
  | some v => strEmpty v

/-- JS `!x || !x.trim()` on an optional string field: absent, empty or
whitespace-only. -/
def optBlank (s : Option String) : Bool :=
  match s with
  | none => true
  | some v => strEmpty v || strEmpty (jsTrim v)

/-- JS `String.prototype.includes` (literal substring containment). -/
def containsStr (s pat : String) : Bool :=
  s.data.tails.any (fun t => pat.data.isPrefixOf t)

/-- The `/^[0-9a-fA-F]{24}$/` MongoDB ObjectId format check used by the
controllers. -/
def isHexChar (c : Char) : Bool :=
  (c.toNat ≥ 48 ∧ c.toNat ≤ 57) ∨ (c.toNat ≥ 97 ∧ c.toNat ≤ 102) ∨
    (c.toNat ≥ 65 ∧ c.toNat ≤ 70)

/-- `id.match(/^[0-9a-fA-F]{24}$/)` succeeds. -/
def isValidObjectId (s : String) : Bool :=
  s.data.length == 24 && s.data.all isHexChar

/-!  A small regular-expression engine (Brzozowski derivatives), used to
embed the fixed email pattern `/^\w+([\.-]?\w+)*@\w+([\.-]?\w+)*(\.\w{2,3})+$/`
from `createBookRequest` exactly. -/

inductive Rx where
  | fail
  | eps
  | cls (p : Char → Bool)
  | seq (a b : Rx)
  | alt (a b : Rx)
  | star (a : Rx)

def Rx.nullable : Rx → Bool
  | .fail => false
  | .eps => true
  | .cls _ => false
  | .seq a b => a.nullable && b.nullable
  | .alt a b => a.nullable || b.nullable
  | .star _ => true

def Rx.deriv : Rx → Char → Rx
  | .fail, _ => .fail
  | .eps, _ => .fail
  | .cls p, c => if p c then .eps else .fail
  | .seq a b, c =>
    if a.nullable then .alt (.seq (a.deriv c) b) (b.deriv c)
    else .seq (a.deriv c) b
  | .alt a b, c => .alt (a.deriv c) (b.deriv c)
  | .star a, c => .seq (a.deriv c) (.star a)

/-- Anchored (full-string) match of a regular expression. -/
def Rx.matches (r : Rx) (s : String) : Bool :=
  (s.data.foldl Rx.deriv r).nullable

/-- `\w` = `[A-Za-z0-9_]`. -/
def isWordChar (c : Char) : Bool :=
  (c.toNat ≥ 97 ∧ c.toNat ≤ 122) ∨ (c.toNat ≥ 65 ∧ c.toNat ≤ 90) ∨
    (c.toNat ≥ 48 ∧ c.toNat ≤ 57) ∨ c = '_'

def rxWord : Rx := .cls isWordChar

/-- `\w+`. -/
def rxWordPlus : Rx := .seq rxWord (.star rxWord)

/-- `[\.-]?`. -/
def rxDotDashOpt : Rx := .alt .eps (.cls (fun c => c = '.' ∨ c = '-'))

/-- `([\.-]?\w+)*`. -/
def rxTailStar : Rx := .star (.seq rxDotDashOpt rxWordPlus)

/-- `\.\w{2,3}`. -/
def rxTld : Rx := .seq (.cls (fun c => c = '.')) (.seq rxWord (.seq rxWord (.alt .eps rxWord)))

/-- The fixed email pattern `/^\w+([\.-]?\w+)*@\w+([\.-]?\w+)*(\.\w{2,3})+$/`. -/
def emailRegex : Rx :=
  .seq rxWordPlus (.seq rxTailStar (.seq (.cls (fun c => c = '@'))
    (.seq rxWordPlus (.seq rxTailStar (.seq rxTld (.star rxTld))))))

/-- `emailRegex.test(s)`. -/
def emailRegexTest (s : String) : Bool := emailRegex.matches s

/-!  Generic list machinery shared by the handler models. -/

/-- `findByIdAndUpdate` / `save` after `findById`: rewrite the documents
matching `p` (in a Mongo store, `_id` is unique, so at most one). -/
def updateWhere (p : α → Bool) (f : α → α) (l : List α) : List α :=
  l.map (fun x => if p x then f x else x)

/-- Insert into a sorted list (the model of Mongo's sort is insertion
sort; the claims under study do not depend on the order of ties). -/
def insertSorted (le : α → α → Bool) (x : α) : List α → List α
  | [] => [x]
  | y :: ys => if le x y then x :: y :: ys else y :: insertSorted le x ys

/-- Sort a list by a boolean comparison. -/
def sortByB (le : α → α → Bool) (l : List α) : List α :=
  l.foldr (insertSorted le) []

/-- A value a Mongo sort key can take on the documents at hand. -/
inductive SortVal where
  | missing
  | int (i : Int)
  | str (s : List Char)
deriving DecidableEq, Repr

/-- Lexicographic comparison of char lists. -/
def charListLe : List Char → List Char → Bool
  | [], _ => true
  | _ :: _, [] => false
  | a :: as, b :: bs => if a < b then true else if b < a then false else charListLe as bs

/-- Ascending Mongo-style comparison of sort keys (missing/null first). -/
def svLe : SortVal → SortVal → Bool
  | .missing, _ => true
  | _, .missing => false
  | .int i, .int j => decide (i ≤ j)
  | .int _, .str _ => true
  | .str _, .int _ => false
  | .str a, .str b => charListLe a b

/-- Sort documents by a key function, ascending or descending. -/
def sortKeyed (desc : Bool) (val : α → SortVal) (l : List α) : List α :=
  sortByB (fun a b => if desc then svLe (val b) (val a) else svLe (val a) (val b)) l

/-- Mongoose sort-string parsing: a leading `-` means descending. -/
def parseSortParam (s : String) : String × Bool :=
  match s.data with
  | '-' :: rest => (String.mk rest, true)
  | _ => (s, false)

/-!  Admin authorization gate (`backend/middleware/adminAuth.js`). -/

/-- `getAdminEmails`: read the comma-separated admin configuration, trim
and lowercase each entry, drop empties; empty or unset configuration gives
the empty list. -/
def getAdminEmails (adminEnv : String) : List String :=
  if strEmpty adminEnv then []
  else ((jsSplit adminEnv ',').map (fun email => jsToLower (jsTrim email))).filter
    (fun email => email.data.length > 0)

/-- `isAdminEmail`: false on a falsy email, otherwise membership of the
lowercased (not trimmed) input in the configured set. -/
def isAdminEmail (adminEnv : String) (email : Option String) : Bool :=
  match email with
  | none => false
  | some e => if strEmpty e then false else (getAdminEmails adminEnv).contains (jsToLower e)

/-- An authenticated identity as the controllers see it (`req.user`);
`email` may be absent from the token. -/
structure User where
  email : Option String
deriving DecidableEq, Repr

/-- The inline admin check used by every gated controller:
`!req.user || !isAdminEmail(req.user.email)` fails exactly when this is
`false`. -/
def adminOk (adminEnv : String) (user : Option User) : Bool :=
  match user with
  | none => false
  | some u => isAdminEmail adminEnv u.email

/-- Outcome of the `requireAdmin` middleware. -/
inductive GateResult where
  | denied (status : Nat) (error message : String)
  | allowed
deriving DecidableEq, Repr

/-- `requireAdmin` middleware: 401 without an identity or email, 403 for a
non-admin email, otherwise pass through. -/
def requireAdmin (adminEnv : String) (user : Option User) : GateResult :=
  match user with
  | none => .denied 401 "Unauthorized" "Authentication required. Please provide a valid token."
  | some u =>
    if optFalsy u.email then
      .denied 401 "Unauthorized" "User email not found in token."
    else if !isAdminEmail adminEnv u.email then
      .denied 403 "Forbidden"
        ("Access denied. Only administrators can perform this action. Admin email: "
          ++ u.email.getD "")
    else .allowed

/-- The membership test exactly as the claim words it — the *trimmed*,
lowercased input against the configured set.  Written from the claim text
only, for comparison with `isAdminEmail`. -/
def claimIsAdminEmail (adminEnv : String) (email : String) : Bool :=
  (getAdminEmails adminEnv).contains (jsToLower (jsTrim email))

/-!  Shared pagination arithmetic (`Math.max(1, parseInt(page))`,
`Math.min(100, Math.max(1, parseInt(limit)))`, `Math.ceil(total/limit)`),
as repeated verbatim in every clamped list handler. -/

/-- `Math.max(1, parseInt(page))`, with the destructuring default `1`. -/
def pageNumOf (page : Option Int) : Int := max 1 (page.getD 1)

/-- `Math.min(100, Math.max(1, parseInt(limit)))`, with the destructuring
default `d`. -/
def limitNumOf (d : Int) (limit : Option Int) : Int := min 100 (max 1 (limit.getD d))

/-- `(pageNum - 1) * limitNum` as a list offset. -/
def skipOf (page limit : Int) : Nat := ((page - 1) * limit).toNat

/-- `Math.ceil(total / limitNum)`. -/
def pagesOf (total : Nat) (limit : Int) : Nat := (total + limit.toNat - 1) / limit.toNat

/-!  The Book document (`backend/Model/BookSchema.js` is referenced by the
controllers; its field list is taken from the controllers and §3 of the
design document).  Dates are `(year, month, day)` triples. -/

structure Book where
  id : String
  name : String
  author : String
  ISBN : String
  image_link : String
  amazon_link : String
  description : Option String := none
  genre : String := "Other"
  pages : Option Int := none
  publishDate : Option (Int × Int × Int) := none
  publisher : Option String := none
  language : String := "English"
  price : Option Int := none
  discount : Int := 0
  tags : List String := []
  rating : Int := 0
  reviewCount : Int := 0
  availability : Bool := true
  copies : Int := 1
  downloads : Int := 0
  views : Int := 0
  featured : Bool := false
  createdAt : Int := 0
deriving DecidableEq, Repr

/-- A sortable encoding of a date triple. -/
def dateVal (d : Int × Int × Int) : Int := d.1 * 10000 + d.2.1 * 100 + d.2.2

/-- The BookRequest document as used by the request controller
(`/requests` sub-API: `title`, `requesterEmail`, …). -/
structure Request where
  id : String
  title : String
  author : String
  description : String := ""
  requesterEmail : String
  requesterName : String := "Anonymous"
  isbn : String := ""
  genre : String := "Other"
  publishYear : Option Int := none
  status : String := "pending"
  adminNotes : Option String := none
  upvotes : Int := 0
  respondedBy : Option String := none
  respondedAt : Option Int := none
  createdAt : Int := 0
deriving DecidableEq, Repr

/-- What `.select('-adminNotes')` leaves of a request in the public
pending-requests listing. -/
structure PendingView where
  id : String
  title : String
  author : String
  description : String
  requesterEmail : String
  requesterName : String
  isbn : String
  genre : String
  publishYear : Option Int
  status : String
  upvotes : Int
  respondedBy : Option String
  respondedAt : Option Int
  createdAt : Int
deriving DecidableEq, Repr

/-- Modelled from the spec: `backend/Model/BookRequestSchema.js` (imported
by the `/book-requests` express router) is not under `src/`.  Field names
follow §3/§9 of the design document and the frontend `Requests` page
(`bookName`, `requestedBy`, `requestedByUid`); per §2 the schema carries
only required-field checks, the status enum and defaults — no email
pattern. -/
structure ReqDoc where
  id : String
  bookName : String
  author : String
  ISBN : Option String := none
  requestedBy : String
  requestedByUid : Option String := none
  status : String := "pending"
  adminNotes : Option String := none
  upvotes : Int := 0
  requestedAt : Int := 0
  updatedAt : Option Int := none
deriving DecidableEq, Repr

/-- The status enum of the BookRequest schema. -/
def validStatus (s : String) : Bool :=
  s == "pending" || s == "approved" || s == "rejected" || s == "fulfilled"

/-- Modelled from the spec (§2: schema validation is required fields,
enums, defaults only): document-level validation run by `save` /
`runValidators` for the router sub-API. -/
def reqDocValid (d : ReqDoc) : Bool :=
  !(strEmpty d.bookName) && !(strEmpty d.author) && !(strEmpty d.requestedBy) &&
    validStatus d.status

/-- The pagination envelope returned by the list endpoints (`hasNext` /
`hasPrev` only where the handler includes them). -/
structure Pagination where
  page : Int
  limit : Int
  total : Nat
  pages : Nat
  hasNext : Option Bool := none
  hasPrev : Option Bool := none
deriving DecidableEq, Repr

/-- The `data` payload of a response. -/
inductive RespBody where
  | empty
  | book (b : Book)
  | books (l : List Book)
  | request (r : Request)
  | requests (l : List Request)
  | pending (l : List PendingView)
  | reqDoc (d : ReqDoc)
  | reqDocs (l : List ReqDoc)
deriving DecidableEq, Repr

/-- An HTTP JSON response as the handlers build it. -/
structure Resp where
  status : Nat
  success : Option Bool := none
  message : Option String := none
  error : Option String := none
  body : RespBody := .empty
  pagination : Option Pagination := none
  count : Option Nat := none
  deletedCount : Option Nat := none
deriving DecidableEq, Repr

/-- The 403 every gated controller returns from its inline admin check. -/
def forbidden (msg : String) : Resp :=
  { status := 403, success := some false, error := some "Forbidden", message := some msg }

/-- A 400 with `success:false` and a message. -/
def badRequest (msg : String) : Resp :=
  { status := 400, success := some false, message := some msg }

/-- A 404 with `success:false` and a message. -/
def notFound (msg : String) : Resp :=
  { status := 404, success := some false, message := some msg }

/-- The four-field pagination envelope (`page`, `limit`, `total`, `pages`). -/
def pagBasic (page limit : Int) (total : Nat) : Pagination :=
  { page := page, limit := limit, total := total, pages := pagesOf total limit }

/-- The six-field pagination envelope (adds `hasNext` / `hasPrev`). -/
def pagFull (page limit : Int) (total : Nat) : Pagination :=
  { page := page, limit := limit, total := total, pages := pagesOf total limit,
    hasNext := some (decide (page < (pagesOf total limit : Int))),
    hasPrev := some (decide (page > 1)) }

/-!  Book CRUD and query controller (`bookController.js`).  The routes in
`bookRoutes.js` wire every handler directly, with no middleware in front,
so the inline `!req.user || !isAdminEmail(req.user.email)` check is the
whole gate. -/

/-- Query parameters of `GET /books`. -/
structure BooksQuery where
  genre : Option String := none
  page : Option Int := none
  limit : Option Int := none
  search : Option String := none
  sortBy : Option String := none
  order : Option String := none
deriving Repr

/-- The `$or name/author/description` case-insensitive search filter. -/
def bookMatchesSearch (q : String) (b : Book) : Bool :=
  containsStr (jsToLower b.name) (jsToLower q) ||
  containsStr (jsToLower b.author) (jsToLower q) ||
  (match b.description with
   | some d => containsStr (jsToLower d) (jsToLower q)
   | none => false)

/-- The filter object built by `getAllBooks` (`if (genre)`, `if (search)`). -/
def bookFilter (q : BooksQuery) (b : Book) : Bool :=
  (match q.genre with
   | some g => strEmpty g || b.genre == g
   | none => true) &&
  (match q.search with
   | some s => strEmpty s || bookMatchesSearch s b
   | none => true)

/-- The sort key `sortObj[sortBy]` reads off a book. -/
def bookSortVal (field : String) (b : Book) : SortVal :=
  if field == "name" then .str b.name.data
  else if field == "author" then .str b.author.data
  else if field == "rating" then .int b.rating
  else if field == "createdAt" then .int b.createdAt
  else if field == "downloads" then .int b.downloads
  else if field == "views" then .int b.views
  else if field == "price" then
    (match b.price with | some p => .int p | none => .missing)
  else if field == "pages" then
    (match b.pages with | some p => .int p | none => .missing)
  else if field == "publishDate" then
    (match b.publishDate with | some d => .int (dateVal d) | none => .missing)
  else .missing

/-- `GET /books`: filter, sort, clamp pagination, slice, envelope. -/
def getAllBooks (q : BooksQuery) (db : List Book) : Resp :=
  let pageNum := pageNumOf q.page
  let limitNum := limitNumOf 10 q.limit
  let filtered := db.filter (bookFilter q)
  let desc := !(q.order.getD "desc" == "asc")
  let sorted := sortKeyed desc (bookSortVal (q.sortBy.getD "createdAt")) filtered
  let books := (sorted.drop (skipOf pageNum limitNum)).take limitNum.toNat
  let total := filtered.length
  { status := 200, success := some true, body := .books books,
    pagination := some (pagFull pageNum limitNum total) }

/-- Body of `POST /books`. -/
structure CreateBookBody where
  name : Option String := none
  author : Option String := none
  ISBN : Option String := none
  image_link : Option String := none
  amazon_link : Option String := none
  description : Option String := none
  genre : Option String := none
  pages : Option Int := none
  publishDate : Option (Int × Int × Int) := none
  publisher : Option String := none
  language : Option String := none
  price : Option Int := none
  discount : Option Int := none
  tags : Option (List String) := none
deriving DecidableEq, Repr

/-- `createBook`: admin gate, requireds, duplicate-ISBN check, insert.
Fields the handler leaves to the schema keep the `Book` defaults
(modelled from the spec, `BookSchema.js` being out of `src/`). -/
def createBook (adminEnv : String) (user : Option User) (body : CreateBookBody)
    (newId : String) (now : Int) (db : List Book) : Resp × List Book :=
  if !(adminOk adminEnv user) then
    (forbidden "Only administrators can create books. Please login with an admin account.", db)
  else if optBlank body.name then (badRequest "Book title (name) is required", db)
  else if optBlank body.author then (badRequest "Author name is required", db)
  else if optBlank body.ISBN then (badRequest "ISBN is required", db)
  else if optBlank body.image_link then (badRequest "Image link is required", db)
  else if optBlank body.amazon_link then (badRequest "Amazon link is required", db)
  else if db.any (fun b => b.ISBN == body.ISBN.getD "") then
    ({ status := 409, success := some false, message := some "A book with this ISBN already exists" }, db)
  else
    let book : Book :=
      { id := newId
        name := jsTrim (body.name.getD "")
        author := jsTrim (body.author.getD "")
        ISBN := jsTrim (body.ISBN.getD "")
        image_link := jsTrim (body.image_link.getD "")
        amazon_link := jsTrim (body.amazon_link.getD "")
        description := if optFalsy body.description then none else some (jsTrim (body.description.getD ""))
        genre := if optFalsy body.genre then "Other" else body.genre.getD ""
        pages := match body.pages with | some p => if p == 0 then none else some p | none => none
        publishDate := body.publishDate
        publisher := if optFalsy body.publisher then none else some (jsTrim (body.publisher.getD ""))
        language := if optFalsy body.language then "English" else body.language.getD ""
        price := match body.price with | some p => if p == 0 then none else some p | none => none
        discount := match body.discount with | some d => d | none => 0
        tags := match body.tags with | some ts => (ts.map jsTrim).filter (fun t => !(strEmpty t)) | none => []
        createdAt := now }
    ({ status := 201, success := some true, body := .book book,
       message := some "Book created successfully" }, db ++ [book])

/-- Body of `PUT /books/:id` and `PATCH /books/:id` (`patchBook`'s
allow-list admits exactly these fields, which is also every updatable
field of the schema). -/
structure UpdateBookBody where
  name : Option String := none
  author : Option String := none
  ISBN : Option String := none
  description : Option String := none
  genre : Option String := none
  image_link : Option String := none
  amazon_link : Option String := none
  publishDate : Option (Int × Int × Int) := none
  pages : Option Int := none
  rating : Option Int := none
  reviewCount : Option Int := none
  availability : Option Bool := none
  copies : Option Int := none
  price : Option Int := none
  discount : Option Int := none
  tags : Option (List String) := none
  featured : Option Bool := none
  publisher : Option String := none
  language : Option String := none
  downloads : Option Int := none
  views : Option Int := none
deriving DecidableEq, Repr

/-- `if (updateData.name) updateData.name = updateData.name.trim()`:
trim only a truthy value, set whatever is present. -/
def trimmedIfTruthy (s : String) : String := if strEmpty s then s else jsTrim s

/-- The document `updateBook` writes (`findByIdAndUpdate` with the
processed body; `availability` is re-derived when `copies` is present). -/
def applyUpdateBook (body : UpdateBookBody) (b : Book) : Book :=
  { b with
    name := match body.name with | some s => trimmedIfTruthy s | none => b.name
    author := match body.author with | some s => trimmedIfTruthy s | none => b.author
    description := match body.description with | some s => some (trimmedIfTruthy s) | none => b.description
    ISBN := match body.ISBN with | some s => trimmedIfTruthy s | none => b.ISBN
    genre := body.genre.getD b.genre
    image_link := body.image_link.getD b.image_link
    amazon_link := body.amazon_link.getD b.amazon_link
    publishDate := match body.publishDate with | some d => some d | none => b.publishDate
    pages := match body.pages with | some p => some p | none => b.pages
    rating := body.rating.getD b.rating
    reviewCount := body.reviewCount.getD b.reviewCount
    copies := body.copies.getD b.copies
    price := match body.price with | some p => some p | none => b.price
    discount := body.discount.getD b.discount
    tags := body.tags.getD b.tags
    featured := body.featured.getD b.featured
    publisher := match body.publisher with | some s => some s | none => b.publisher
    language := body.language.getD b.language
    downloads := body.downloads.getD b.downloads
    views := body.views.getD b.views
    availability := match body.copies with
      | some c => decide (c > 0)
      | none => body.availability.getD b.availability }

/-- `updateBook` (`PUT /books/:id`): gate, id-format check, merge. -/
def updateBook (adminEnv : String) (user : Option User) (id : String)
    (body : UpdateBookBody) (db : List Book) : Resp × List Book :=
  if !(adminOk adminEnv user) then
    (forbidden "Only administrators can update books. Please login with an admin account.", db)
  else if !(isValidObjectId id) then (badRequest "Invalid book ID format", db)
  else
    match db.find? (fun b => b.id == id) with
    | none => (notFound "Book not found", db)
    | some b =>
      ({ status := 200, success := some true, body := .book (applyUpdateBook body b),
         message := some "Book updated successfully" },
       updateWhere (fun x => x.id == id) (applyUpdateBook body) db)

/-- `Object.keys(updates).length === 0` for the patch body. -/
def patchProvided (body : UpdateBookBody) : Bool :=
  body.name.isSome || body.author.isSome || body.ISBN.isSome || body.description.isSome ||
  body.genre.isSome || body.image_link.isSome || body.amazon_link.isSome ||
  body.publishDate.isSome || body.pages.isSome || body.rating.isSome ||
  body.reviewCount.isSome || body.availability.isSome || body.copies.isSome ||
  body.price.isSome || body.discount.isSome || body.tags.isSome || body.featured.isSome ||
  body.publisher.isSome || body.language.isSome || body.downloads.isSome || body.views.isSome

/-- The document `patchBook` writes: like `updateBook`'s merge but with no
`availability` re-derivation and no ISBN trim. -/
def applyPatchBook (body : UpdateBookBody) (b : Book) : Book :=
  { b with
    name := match body.name with | some s => trimmedIfTruthy s | none => b.name
    author := match body.author with | some s => trimmedIfTruthy s | none => b.author
    description := match body.description with | some s => some (trimmedIfTruthy s) | none => b.description
    ISBN := body.ISBN.getD b.ISBN
    genre := body.genre.getD b.genre
    image_link := body.image_link.getD b.image_link
    amazon_link := body.amazon_link.getD b.amazon_link
    publishDate := match body.publishDate with | some d => some d | none => b.publishDate
    pages := match body.pages with | some p => some p | none => b.pages
    rating := body.rating.getD b.rating
    reviewCount := body.reviewCount.getD b.reviewCount
    availability := body.availability.getD b.availability
    copies := body.copies.getD b.copies
    price := match body.price with | some p => some p | none => b.price
    discount := body.discount.getD b.discount
    tags := body.tags.getD b.tags
    featured := body.featured.getD b.featured
    publisher := match body.publisher with | some s => some s | none => b.publisher
    language := body.language.getD b.language
    downloads := body.downloads.getD b.downloads
    views := body.views.getD b.views }

/-- `patchBook` (`PATCH /books/:id`): gate, id-format check, allow-list
collection, empty-update 400, `$set` merge. -/
def patchBook (adminEnv : String) (user : Option User) (id : String)
    (body : UpdateBookBody) (db : List Book) : Resp × List Book :=
  if !(adminOk adminEnv user) then
    (forbidden "Only administrators can update books. Please login with an admin account.", db)
  else if !(isValidObjectId id) then (badRequest "Invalid book ID format", db)
  else if !(patchProvided body) then (badRequest "No valid fields to update", db)
  else
    match db.find? (fun b => b.id == id) with
    | none => (notFound "Book not found", db)
    | some b =>
      ({ status := 200, success := some true, body := .book (applyPatchBook body b),
         message := some "Book updated successfully" },
       updateWhere (fun x => x.id == id) (applyPatchBook body) db)

/-- `deleteBook` (`DELETE /books/:id`). -/
def deleteBook (adminEnv : String) (user : Option User) (id : String)
    (db : List Book) : Resp × List Book :=
  if !(adminOk adminEnv user) then
    (forbidden "Only administrators can delete books. Please login with an admin account.", db)
  else if !(isValidObjectId id) then (badRequest "Invalid book ID format", db)
  else
    match db.find? (fun b => b.id == id) with
    | none => (notFound "Book not found", db)
    | some b =>
      ({ status := 200, success := some true, body := .book b,
         message := some "Book deleted successfully" },
       db.filter (fun x => !(x.id == id)))

/-- `deleteMultipleBooks` (`DELETE /books`, body `{ids}`). -/
def deleteMultipleBooks (adminEnv : String) (user : Option User)
    (ids : Option (List String)) (db : List Book) : Resp × List Book :=
  if !(adminOk adminEnv user) then
    (forbidden "Only administrators can delete books. Please login with an admin account.", db)
  else
    match ids with
    | none => (badRequest "Array of book IDs is required", db)
    | some l =>
      if l.isEmpty then (badRequest "Array of book IDs is required", db)
      else if !(l.all isValidObjectId) then (badRequest "Some book IDs are invalid", db)
      else
        let removed := (db.filter (fun b => l.contains b.id)).length
        ({ status := 200, success := some true,
           message := some (toString removed ++ " book(s) deleted successfully"),
           deletedCount := some removed },
         db.filter (fun b => !(l.contains b.id)))

/-- `searchBooks` (`GET /search/books?q=&limit=`): the `$or` substring
filter and `.limit(parseInt(limit))` — no clamping and no page
parameter. -/
def searchBooks (q : Option String) (limit : Option Int) (db : List Book) : Resp :=
  if optBlank q then badRequest "Search query is required"
  else
    let books := (db.filter (bookMatchesSearch (q.getD ""))).take (limit.getD 20).toNat
    { status := 200, success := some true, body := .books books, count := some books.length }

/-- `getBooksByGenre` (`GET /genre/:genre?page=&limit=`). -/
def getBooksByGenre (genre : String) (page limit : Option Int) (db : List Book) : Resp :=
  if strEmpty genre || strEmpty (jsTrim genre) then badRequest "Genre is required"
  else
    let pageNum := pageNumOf page
    let limitNum := limitNumOf 10 limit
    let filtered := db.filter (fun b => b.genre == genre)
    let sorted := sortKeyed true (fun b => .int b.rating) filtered
    let books := (sorted.drop (skipOf pageNum limitNum)).take limitNum.toNat
    { status := 200, success := some true, body := .books books,
      pagination := some (pagBasic pageNum limitNum filtered.length) }

/-- The multi-key trending order: rating, downloads, views, createdAt,
each descending. -/
def trendLe (a b : Book) : Bool :=
  if a.rating > b.rating then true
  else if a.rating < b.rating then false
  else if a.downloads > b.downloads then true
  else if a.downloads < b.downloads then false
  else if a.views > b.views then true
  else if a.views < b.views then false
  else decide (a.createdAt ≥ b.createdAt)

/-- `getTrendingBooks` (`GET /trending?limit=`). -/
def getTrendingBooks (limit : Option Int) (db : List Book) : Resp :=
  let limitNum := limitNumOf 10 limit
  let books := (sortByB trendLe db).take limitNum.toNat
  { status := 200, success := some true, body := .books books, count := some books.length }

/-- `getFeaturedBooks` (`GET /featured?limit=`). -/
def getFeaturedBooks (limit : Option Int) (db : List Book) : Resp :=
  let limitNum := limitNumOf 10 limit
  let books := (sortKeyed true (fun b => .int b.createdAt) (db.filter (·.featured))).take limitNum.toNat
  { status := 200, success := some true, body := .books books, count := some books.length }

/-- `getAvailableBooks` (`GET /available?page=&limit=`). -/
def getAvailableBooks (page limit : Option Int) (db : List Book) : Resp :=
  let pageNum := pageNumOf page
  let limitNum := limitNumOf 10 limit
  let filtered := db.filter (·.availability)
  let sorted := sortKeyed true (fun b => .int b.createdAt) filtered
  let books := (sorted.drop (skipOf pageNum limitNum)).take limitNum.toNat
  { status := 200, success := some true, body := .books books,
    pagination := some (pagBasic pageNum limitNum filtered.length) }

/-- `getBooksByAuthor` (`GET /author/:author?page=&limit=`). -/
def getBooksByAuthor (author : String) (page limit : Option Int) (db : List Book) : Resp :=
  if strEmpty author || strEmpty (jsTrim author) then badRequest "Author name is required"
  else
    let pageNum := pageNumOf page
    let limitNum := limitNumOf 10 limit
    let filtered := db.filter (fun b => containsStr (jsToLower b.author) (jsToLower author))
    let sorted := sortKeyed true
      (fun b => match b.publishDate with | some d => .int (dateVal d) | none => .missing) filtered
    let books := (sorted.drop (skipOf pageNum limitNum)).take limitNum.toNat
    { status := 200, success := some true, body := .books books,
      pagination := some (pagBasic pageNum limitNum filtered.length) }

/-- `getBooksByRating` (`GET /rating?minRating=&maxRating=&page=&limit=`). -/
def getBooksByRating (minRating maxRating page limit : Option Int) (db : List Book) : Resp :=
  let lo := max 0 (minRating.getD 0)
  let hi := min 5 (maxRating.getD 5)
  if lo > hi then badRequest "Minimum rating cannot be greater than maximum rating"
  else
    let pageNum := pageNumOf page
    let limitNum := limitNumOf 10 limit
    let filtered := db.filter (fun b => lo ≤ b.rating && b.rating ≤ hi)
    let sorted := sortKeyed true (fun b => .int b.rating) filtered
    let books := (sorted.drop (skipOf pageNum limitNum)).take limitNum.toNat
    { status := 200, success := some true, body := .books books,
      pagination := some (pagBasic pageNum limitNum filtered.length) }

/-- `getBooksByPriceRange` (`GET /price-range?minPrice=&maxPrice=&page=&limit=`). -/
def getBooksByPriceRange (minPrice maxPrice page limit : Option Int) (db : List Book) : Resp :=
  let lo := max 0 (minPrice.getD 0)
  let hi := max lo (maxPrice.getD 10000)
  let pageNum := pageNumOf page
  let limitNum := limitNumOf 10 limit
  let inRange : Book → Bool := fun b =>
    match b.price with
    | some p => lo ≤ p && p ≤ hi
    | none => false
  let filtered := db.filter inRange
  let sorted := sortKeyed false
    (fun b => match b.price with | some p => .int p | none => .missing) filtered
  let books := (sorted.drop (skipOf pageNum limitNum)).take limitNum.toNat
  { status := 200, success := some true, body := .books books,
    pagination := some (pagBasic pageNum limitNum filtered.length) }

/-- `getBooksByYear` (`GET /year/:year?page=&limit=`): `publishDate`
between Jan 1 and Dec 31 of the year. -/
def getBooksByYear (year : Option Int) (page limit : Option Int) (db : List Book) : Resp :=
  match year with
  | none => badRequest "Year is required"
  | some y =>
    let pageNum := pageNumOf page
    let limitNum := limitNumOf 10 limit
    let inYear : Book → Bool := fun b =>
      match b.publishDate with
      | some d => dateVal (y, 1, 1) ≤ dateVal d && dateVal d ≤ dateVal (y, 12, 31)
      | none => false
    let filtered := db.filter inYear
    let sorted := sortKeyed true
      (fun b => match b.publishDate with | some d => .int (dateVal d) | none => .missing) filtered
    let books := (sorted.drop (skipOf pageNum limitNum)).take limitNum.toNat
    { status := 200, success := some true, body := .books books,
      pagination := some (pagBasic pageNum limitNum filtered.length) }

/-!  Book-request lifecycle controller (`requestController.js`, the
`/requests` sub-API). -/

/-- Body of `POST /requests` (`createBookRequest`). -/
structure CreateRequestBody where
  title : Option String := none
  author : Option String := none
  description : Option String := none
  requesterEmail : Option String := none
  requesterName : Option String := none
  isbn : Option String := none
  genre : Option String := none
  publishYear : Option Int := none
deriving DecidableEq, Repr

/-- `createBookRequest`: public; requires non-blank title and author and a
`requesterEmail` accepted by `emailRegex`, then inserts a pending
request. -/
def createBookRequest (body : CreateRequestBody) (newId : String) (now : Int)
    (db : List Request) : Resp × List Request :=
  if optBlank body.title then (badRequest "Book title is required", db)
  else if optBlank body.author then (badRequest "Book author is required", db)
  else if optBlank body.requesterEmail then (badRequest "Requester email is required", db)
  else if !(emailRegexTest (body.requesterEmail.getD "")) then
    (badRequest "Please provide a valid email address", db)
  else
    let r : Request :=
      { id := newId
        title := jsTrim (body.title.getD "")
        author := jsTrim (body.author.getD "")
        description := if optFalsy body.description then "" else jsTrim (body.description.getD "")
        requesterEmail := jsTrim (jsToLower (body.requesterEmail.getD ""))
        requesterName := if optFalsy body.requesterName then "Anonymous" else jsTrim (body.requesterName.getD "")
        isbn := if optFalsy body.isbn then "" else jsTrim (body.isbn.getD "")
        genre := if optFalsy body.genre then "Other" else body.genre.getD ""
        publishYear := match body.publishYear with | some y => if y == 0 then none else some y | none => none
        status := "pending"
        createdAt := now }
    ({ status := 201, success := some true, body := .request r,
       message := some "Book request submitted successfully. Admins will review it soon!" },
     db ++ [r])

/-- Query parameters of the request list endpoints. -/
structure RequestsQuery where
  status : Option String := none
  page : Option Int := none
  limit : Option Int := none
  sort : Option String := none
deriving Repr

/-- The sort key a Mongoose sort-field string reads off a request. -/
def reqSortVal (field : String) (r : Request) : SortVal :=
  if field == "createdAt" then .int r.createdAt
  else if field == "upvotes" then .int r.upvotes
  else if field == "title" then .str r.title.data
  else if field == "author" then .str r.author.data
  else if field == "status" then .str r.status.data
  else if field == "requesterEmail" then .str r.requesterEmail.data
  else if field == "adminNotes" then
    (match r.adminNotes with | some s => .str s.data | none => .missing)
  else if field == "respondedAt" then
    (match r.respondedAt with | some t => .int t | none => .missing)
  else if field == "publishYear" then
    (match r.publishYear with | some y => .int y | none => .missing)
  else .missing

/-- `.sort(sortParam)` on requests. -/
def sortRequests (sortParam : String) (l : List Request) : List Request :=
  sortKeyed (parseSortParam sortParam).2 (reqSortVal (parseSortParam sortParam).1) l

/-- `getBookRequests` (`GET /requests`, admin listing). -/
def getBookRequests (adminEnv : String) (user : Option User) (q : RequestsQuery)
    (db : List Request) : Resp :=
  if !(adminOk adminEnv user) then forbidden "Only administrators can view book requests."
  else
    let pageNum := pageNumOf q.page
    let limitNum := limitNumOf 10 q.limit
    let filtered := db.filter (fun r =>
      match q.status with
      | some s => strEmpty s || r.status == s
      | none => true)
    let sorted := sortRequests (q.sort.getD "-createdAt") filtered
    let requests := (sorted.drop (skipOf pageNum limitNum)).take limitNum.toNat
    { status := 200, success := some true, body := .requests requests,
      pagination := some (pagFull pageNum limitNum filtered.length) }

/-- `getUserRequests` (`GET /requests/my`): 401 without an authenticated
email, else the caller's own requests. -/
def getUserRequests (user : Option User) (page limit : Option Int)
    (db : List Request) : Resp :=
  match user with
  | none => { status := 401, success := some false, message := some "Authentication required" }
  | some u =>
    if optFalsy u.email then
      { status := 401, success := some false, message := some "Authentication required" }
    else
      let pageNum := pageNumOf page
      let limitNum := limitNumOf 10 limit
      let filtered := db.filter (fun r => r.requesterEmail == jsToLower (u.email.getD ""))
      let sorted := sortRequests "-createdAt" filtered
      let requests := (sorted.drop (skipOf pageNum limitNum)).take limitNum.toNat
      { status := 200, success := some true, body := .requests requests,
        pagination := some (pagBasic pageNum limitNum filtered.length) }

/-- The document `approveBookRequest` saves. -/
def approvedDoc (userEmail : Option String) (adminNotes : Option String) (now : Int)
    (x : Request) : Request :=
  { x with
    status := "approved"
    respondedBy := userEmail
    respondedAt := some now
    adminNotes := if optFalsy adminNotes then x.adminNotes else some (jsTrim (adminNotes.getD "")) }

/-- `approveBookRequest` (`POST /requests/:id/approve`). -/
def approveBookRequest (adminEnv : String) (user : Option User) (id : String)
    (adminNotes : Option String) (now : Int) (db : List Request) : Resp × List Request :=
  if !(adminOk adminEnv user) then
    (forbidden "Only administrators can approve book requests.", db)
  else if !(isValidObjectId id) then (badRequest "Invalid request ID format", db)
  else
    match db.find? (fun r => r.id == id) with
    | none => (notFound "Book request not found", db)
    | some r =>
      ({ status := 200, success := some true,
         body := .request (approvedDoc (user.bind User.email) adminNotes now r),
         message := some "Book request approved successfully" },
       updateWhere (fun x => x.id == id) (approvedDoc (user.bind User.email) adminNotes now) db)

/-- The document `rejectBookRequest` saves. -/
def rejectedDoc (userEmail : Option String) (adminNotes : String) (now : Int)
    (x : Request) : Request :=
  { x with
    status := "rejected"
    respondedBy := userEmail
    respondedAt := some now
    adminNotes := some (jsTrim adminNotes) }

/-- `rejectBookRequest` (`POST /requests/:id/reject`): requires a
non-blank `adminNotes` reason before touching the store. -/
def rejectBookRequest (adminEnv : String) (user : Option User) (id : String)
    (adminNotes : Option String) (now : Int) (db : List Request) : Resp × List Request :=
  if !(adminOk adminEnv user) then
    (forbidden "Only administrators can reject book requests.", db)
  else if !(isValidObjectId id) then (badRequest "Invalid request ID format", db)
  else if optBlank adminNotes then
    (badRequest "Rejection reason (adminNotes) is required", db)
  else
    match db.find? (fun r => r.id == id) with
    | none => (notFound "Book request not found", db)
    | some r =>
      ({ status := 200, success := some true,
         body := .request (rejectedDoc (user.bind User.email) (adminNotes.getD "") now r),
         message := some "Book request rejected" },
       updateWhere (fun x => x.id == id) (rejectedDoc (user.bind User.email) (adminNotes.getD "") now) db)

/-- The document `markRequestFulfilled` saves: only `status` changes. -/
def fulfilledDoc (x : Request) : Request := { x with status := "fulfilled" }

/-- `markRequestFulfilled` (`POST /requests/:id/fulfill`). -/
def markRequestFulfilled (adminEnv : String) (user : Option User) (id : String)
    (db : List Request) : Resp × List Request :=
  if !(adminOk adminEnv user) then
    (forbidden "Only administrators can mark requests as fulfilled.", db)
  else if !(isValidObjectId id) then (badRequest "Invalid request ID format", db)
  else
    match db.find? (fun r => r.id == id) with
    | none => (notFound "Book request not found", db)
    | some r =>
      ({ status := 200, success := some true, body := .request (fulfilledDoc r),
         message := some "Request marked as fulfilled" },
       updateWhere (fun x => x.id == id) fulfilledDoc db)

/-- The `$inc: { upvotes: 1 }` update. -/
def upvoteInc (x : Request) : Request := { x with upvotes := x.upvotes + 1 }

/-- `upvoteRequest` (`POST /requests/:id/upvote`): public, no identity
argument at all. -/
def upvoteRequest (id : String) (db : List Request) : Resp × List Request :=
  if !(isValidObjectId id) then (badRequest "Invalid request ID format", db)
  else
    match db.find? (fun r => r.id == id) with
    | none => (notFound "Book request not found", db)
    | some r =>
      ({ status := 200, success := some true, body := .request (upvoteInc r),
         message := some "Request upvoted successfully" },
       updateWhere (fun x => x.id == id) upvoteInc db)

/-- `.select('-adminNotes')`: the projection applied by the public
pending listing. -/
def toPendingView (r : Request) : PendingView :=
  { id := r.id
    title := r.title
    author := r.author
    description := r.description
    requesterEmail := r.requesterEmail
    requesterName := r.requesterName
    isbn := r.isbn
    genre := r.genre
    publishYear := r.publishYear
    status := r.status
    upvotes := r.upvotes
    respondedBy := r.respondedBy
    respondedAt := r.respondedAt
    createdAt := r.createdAt }

/-- `getPendingRequests` (`GET /requests/pending`, public): pending
requests sorted by the caller-supplied sort string (default `-upvotes`),
paginated, with `adminNotes` stripped from the output. -/
def getPendingRequests (page limit : Option Int) (sort : Option String)
    (db : List Request) : Resp :=
  let pageNum := pageNumOf page
  let limitNum := limitNumOf 10 limit
  let filtered := db.filter (fun r => r.status == "pending")
  let sorted := sortRequests (sort.getD "-upvotes") filtered
  let requests := ((sorted.drop (skipOf pageNum limitNum)).take limitNum.toNat).map toPendingView
  { status := 200, success := some true, body := .pending requests,
    pagination := some (pagBasic pageNum limitNum filtered.length) }

/-!  The second request sub-API: the express router of `/book-requests`
(`BookRequestRoutes`), which talks to the BookRequest model directly and
carries no authentication or admin middleware on any route. -/

/-- Body of the router's `POST /book-requests` — handed straight to
`new BookRequest(req.body)`. -/
structure RouterCreateBody where
  bookName : Option String := none
  author : Option String := none
  ISBN : Option String := none
  requestedBy : Option String := none
  requestedByUid : Option String := none
  status : Option String := none
deriving DecidableEq, Repr

/-- `router.post('/')` of `/book-requests`: build the document with schema
defaults and `save()`.  Only the (spec-modelled) schema validation runs —
no identity is consulted and no email pattern is applied. -/
def routerCreateRequest (body : RouterCreateBody) (newId : String) (now : Int)
    (db : List ReqDoc) : Resp × List ReqDoc :=
  let d : ReqDoc :=
    { id := newId
      bookName := body.bookName.getD ""
      author := body.author.getD ""
      ISBN := body.ISBN
      requestedBy := body.requestedBy.getD ""
      requestedByUid := body.requestedByUid
      status := body.status.getD "pending"
      requestedAt := now }
  if reqDocValid d then ({ status := 201, body := .reqDoc d }, db ++ [d])
  else ({ status := 400, message := some "Error creating book request" }, db)

/-- Body of the router's `PUT /book-requests/:id`. -/
structure RouterUpdateBody where
  bookName : Option String := none
  author : Option String := none
  ISBN : Option String := none
  requestedBy : Option String := none
  requestedByUid : Option String := none
  status : Option String := none
  adminNotes : Option String := none
deriving DecidableEq, Repr

/-- The merge `findByIdAndUpdate` performs for the router's PUT. -/
def routerApplyUpdate (body : RouterUpdateBody) (now : Int) (x : ReqDoc) : ReqDoc :=
  { x with
    bookName := body.bookName.getD x.bookName
    author := body.author.getD x.author
    ISBN := match body.ISBN with | some s => some s | none => x.ISBN
    requestedBy := body.requestedBy.getD x.requestedBy
    requestedByUid := match body.requestedByUid with | some s => some s | none => x.requestedByUid
    status := body.status.getD x.status
    adminNotes := match body.adminNotes with | some s => some s | none => x.adminNotes
    updatedAt := some now }

/-- `router.put('/:id')` of `/book-requests`: update any body field with
`runValidators` — again with no identity or admin check. -/
def routerPutRequest (id : String) (body : RouterUpdateBody) (now : Int)
    (db : List ReqDoc) : Resp × List ReqDoc :=
  if !(isValidObjectId id) then
    ({ status := 400, message := some "Error updating book request" }, db)
  else
    match db.find? (fun d => d.id == id) with
    | none => ({ status := 404, message := some "Book request not found" }, db)
    | some d =>
      if reqDocValid (routerApplyUpdate body now d) then
        ({ status := 200, body := .reqDoc (routerApplyUpdate body now d) },
         updateWhere (fun x => x.id == id) (routerApplyUpdate body now) db)
      else ({ status := 400, message := some "Error updating book request" }, db)

/-- The merge `findByIdAndUpdate` performs for the router's PATCH
(`{ status, adminNotes, updatedAt }`; `undefined` keys are dropped). -/
def routerApplyStatus (status adminNotes : Option String) (now : Int) (x : ReqDoc) : ReqDoc :=
  { x with
    status := status.getD x.status
    adminNotes := match adminNotes with | some s => some s | none => x.adminNotes
    updatedAt := some now }

/-- `router.patch('/:id/status')` of `/book-requests`: set `status` and
`adminNotes` with `runValidators` — fully public, no identity argument. -/
def routerPatchStatus (id : String) (status adminNotes : Option String) (now : Int)
    (db : List ReqDoc) : Resp × List ReqDoc :=
  if !(isValidObjectId id) then
    ({ status := 400, message := some "Error updating request status" }, db)
  else
    match db.find? (fun d => d.id == id) with
    | none => ({ status := 404, message := some "Book request not found" }, db)
    | some d =>
      if reqDocValid (routerApplyStatus status adminNotes now d) then
        ({ status := 200, body := .reqDoc (routerApplyStatus status adminNotes now d) },
         updateWhere (fun x => x.id == id) (routerApplyStatus status adminNotes now) db)
      else ({ status := 400, message := some "Error updating request status" }, db)

/-!  AI chat controller (`backend/controllers/aiController.js`). -/

/-- Canned reply: fiction search. -/
def aiFictionReply : String :=
  "You can find fiction books in the Books page under the Fiction category. You can also browse all books on the Home page or use the Books page to filter by category."

/-- Canned reply: science search. -/
def aiScienceReply : String :=
  "Science books are available in the Books page under the Science category. Browse the Home page to see featured science books, or visit the Books page to explore all science titles."

/-- Canned reply: e-books. -/
def aiEbookReply : String :=
  "E-books are available on the Digital Books page and also shown on the Home page. You can preview e-books directly from Google Books. Just click the Preview button on any e-book card."

/-- Canned reply: audiobooks. -/
def aiAudiobookReply : String :=
  "Audiobooks are available on the Digital Books page and also shown on the Home page. You can listen to previews by clicking the Listen button on any audiobook card."

/-- Canned reply: generic book search. -/
def aiFindReply : String :=
  "You can find books in several ways:\n1. Browse by category on the Books page\n2. Check recommendations on the Home page\n3. Search for specific titles\n4. View e-books and audiobooks on the Digital Books page"

/-- Canned reply: how to use the platform. -/
def aiHowReply : String :=
  "EasyReads is easy to use! Here\x27s how:\n1. Browse books by category on the Books page\n2. Check out recommendations on the Home page\n3. View e-books and audiobooks on Digital Books\n4. Request books that aren\x27t available on the Requests page\n5. Use the search to find specific titles"

/-- Canned reply: recommendations. -/
def aiRecommendReply : String :=
  "I can help you find great books! Here are some options:\n1. Check the Recommendations section on the Home page - it shows books based on categories you\x27ve visited\n2. Browse by category: Fiction, Science, Biography, Fantasy, History, Technology, or Romance\n3. Explore e-books and audiobooks on the Digital Books page\n\nWhat genre are you interested in?"

/-- Canned reply: categories. -/
def aiCategoriesReply : String :=
  "EasyReads offers books in 7 main categories:\n1. Fiction\n2. Science\n3. Biography\n4. Fantasy\n5. History\n6. Technology\n7. Romance\n\nYou can browse all categories on the Books page or Home page."

/-- Canned reply: requesting books. -/
def aiRequestReply : String :=
  "If a book you want isn\x27t available, you can request it! Go to the Requests page and fill out the book request form with the book name, author, and optional ISBN. Admins will review your request and notify you when it\x27s available."

/-- Canned reply: features. -/
def aiFeaturesReply : String :=
  "EasyReads offers:\n✅ Browse books by category\n✅ Personalized recommendations\n✅ E-books and audiobooks\n✅ Book previews\n✅ Request unavailable books\n✅ Admin dashboard for management\n\nExplore the Home page to see all features!"

/-- Canned reply: greeting. -/
def aiGreetingReply : String :=
  "Hello! I\x27m here to help you with EasyReads. You can ask me about:\n- Finding books\n- Book categories\n- E-books and audiobooks\n- How to use the platform\n- Book recommendations\n\nWhat would you like to know?"

/-- Canned reply: the generic default. -/
def aiDefaultReply : String :=
  "I\x27m here to help you with EasyReads! You can ask me about:\n- Finding books by category\n- E-books and audiobooks\n- Book recommendations\n- How to use the platform\n- Requesting books\n\nWhat would you like to know?"

/-- `generateAIResponse`: the fixed keyword decision table over the
lowercased message. -/
def generateAIResponse (userMessage : String) : String :=
  let m := jsToLower userMessage
  if containsStr m "find" || containsStr m "search" || containsStr m "book" then
    if containsStr m "fiction" then aiFictionReply
    else if containsStr m "science" then aiScienceReply
    else if containsStr m "ebook" || containsStr m "e-book" then aiEbookReply
    else if containsStr m "audiobook" then aiAudiobookReply
    else aiFindReply
  else if containsStr m "how" && (containsStr m "use" || containsStr m "work") then aiHowReply
  else if containsStr m "recommend" || containsStr m "suggest" then aiRecommendReply
  else if containsStr m "category" || containsStr m "categories" then aiCategoriesReply
  else if containsStr m "request" || containsStr m "not available" then aiRequestReply
  else if containsStr m "feature" || containsStr m "what can" then aiFeaturesReply
  else if containsStr m "hello" || containsStr m "hi" || containsStr m "hey" then aiGreetingReply
  else aiDefaultReply

/-- Result of the chat endpoint; `networkCalled` records whether the
external completion API was consulted. -/
structure AiResp where
  status : Nat
  success : Bool
  response : Option String := none
  error : Option String := none
  networkCalled : Bool := false
deriving DecidableEq, Repr

/-- `chatWithAI` (`POST /ai/chat`).  `apiKey` is `OPENAI_API_KEY` (the
client object exists exactly when the key is truthy); the external
completion call, including its error fallback, is abstracted as
`oracle`. -/
def chatWithAI (apiKey : Option String) (oracle : String → String)
    (message : Option String) : AiResp :=
  match message with
  | none =>
    { status := 400, success := false,
      error := some "Message is required and must be a non-empty string" }
  | some m =>
    if strEmpty (jsTrim m) then
      { status := 400, success := false,
        error := some "Message is required and must be a non-empty string" }
    else if optFalsy apiKey then
      { status := 200, success := true, response := some (generateAIResponse (jsTrim m)) }
    else
      { status := 200, success := true, response := some (oracle (jsTrim m)),
        networkCalled := true }

/-!  Concrete documents and stores used by the witnesses and
counterexamples. -/

/-- A pending request document of the router sub-API. -/
def c2Doc : ReqDoc :=
  { id := "0123456789abcdef01234567"
    bookName := "Dune"
    author := "Frank Herbert"
    requestedBy := "reader@example.com" }

/-- A catalogue book whose name matches the search string `b`. -/
def c4Book : Book :=
  { id := "b1", name := "b", author := "a", ISBN := "i", image_link := "l", amazon_link := "z" }

/-- A store of 101 books all matching the search string `b`. -/
def c4DB : List Book := List.replicate 101 c4Book

/-- A pending book request. -/
def c5Req : Request :=
  { id := "0123456789abcdef01234567"
    title := "Dune"
    author := "Frank Herbert"
    requesterEmail := "reader@example.com" }

/-- An identity whose email is in the configured admin set. -/
def c5Admin : User := { email := some "admin@easyreads.com" }

/-- A router creation body with a malformed requester email. -/
def c7Body : RouterCreateBody :=
  { bookName := some "Dune", author := some "Frank Herbert", requestedBy := some "not-an-email" }

/-- A pending request to be upvoted. -/
def c8Req : Request :=
  { id := "0123456789abcdef01234567"
    title := "Dune"
    author := "Frank Herbert"
    requesterEmail := "reader@example.com" }

/-- Iterate the public upvote operation `n` times on the store. -/
def upvoteIter (id : String) : Nat → List Request → List Request
  | 0, db => db
  | n + 1, db => upvoteIter id n (upvoteRequest id db).2

/-- A request with all of `adminNotes` erased — two stores are
observably equal when they agree request-by-request up to `adminNotes`. -/
def eraseNotes (r : Request) : Request := { r with adminNotes := none }

/-- Two requests that differ at most in `adminNotes`. -/
def ObsEqReq (a b : Request) : Prop := eraseNotes a = eraseNotes b

/-- First pending request of the C10 stores (visible fields). -/
def c10a : Request :=
  { id := "aaaaaaaaaaaaaaaaaaaaaaaa"
    title := "Alpha"
    author := "A"
    requesterEmail := "a@x.co" }

/-- Second pending request of the C10 stores (visible fields). -/
def c10b : Request :=
  { id := "bbbbbbbbbbbbbbbbbbbbbbbb"
    title := "Beta"
    author := "B"
    requesterEmail := "b@x.co" }

/-- First store: secret notes `z` / `a`. -/
def c10dbX : List Request :=
  [{ c10a with adminNotes := some "z" }, { c10b with adminNotes := some "a" }]

/-- Second store: the same requests with secret notes `a` / `z`. -/
def c10dbY : List Request :=
  [{ c10a with adminNotes := some "a" }, { c10b with adminNotes := some "z" }]


/-- The `(page, limit)` pair a response's pagination envelope reports as
the effective pagination. -/
def pageLimitOf (r : Resp) : Option (Int × Int) :=
  r.pagination.map (fun p => (p.page, p.limit))

/-- A controller creation body with a malformed requester email. -/
def c7CtrlBody : CreateRequestBody :=
  { title := some "Dune", author := some "Frank Herbert", requesterEmail := some "not-an-email" }

/-!  ============================  Theorems  ============================ -/

/-- Every configured admin entry is non-empty. -/
theorem getAdminEmails_pos (adminEnv : String) :
    ∀ x ∈ getAdminEmails adminEnv, x.data.length > 0 := by
  intro x hx
  unfold getAdminEmails at hx
  split at hx
  · simp at hx
  · have := (List.mem_filter.mp hx).2
    simpa using this

/-- The empty string is never in the configured admin set. -/
theorem empty_not_admin (adminEnv : String) :
    (getAdminEmails adminEnv).contains "" = false := by
  rw [Bool.eq_false_iff]
  intro h
  have hmem : ("" : String) ∈ getAdminEmails adminEnv := by
    simpa using h
  have := getAdminEmails_pos adminEnv "" hmem
  simp [String.data] at this

/-- C3 counterexample: the claim tests membership of the *trimmed*,
lowercased input, but `isAdminEmail` only lowercases — an input whose trim
is a configured admin email is still rejected. -/
theorem C3_counterexample_no_trim :
    claimIsAdminEmail "admin@easyreads.com" " admin@easyreads.com" = true ∧
    isAdminEmail "admin@easyreads.com" (some " admin@easyreads.com") = false := by
  decide

/-- C3 (amended): `isAdminEmail` returns true exactly when the lowercased
(but *not* trimmed) input email is a member of the set obtained by
splitting the admin-emails value on commas, trimming and lowercasing each
entry and dropping empty entries; with an empty or unset configuration the
set is empty and the check returns false for every email (fails closed). -/
theorem C3_membership_is_lowercased_untrimmed :
    (∀ adminEnv email, isAdminEmail adminEnv (some email) =
      (getAdminEmails adminEnv).contains (jsToLower email)) ∧
    (∀ adminEnv, isAdminEmail adminEnv none = false) ∧
    (getAdminEmails "" = []) ∧
    (∀ email, isAdminEmail "" email = false) := by
  refine ⟨?_, fun _ => rfl, rfl, ?_⟩
  · intro adminEnv email
    show (if strEmpty email then false
          else (getAdminEmails adminEnv).contains (jsToLower email)) = _
    by_cases h : strEmpty email
    · have hd : email.data = [] := by
        simpa [strEmpty] using h
      have hlow : jsToLower email = "" := by
        simp [jsToLower, hd]
      rw [if_pos h, hlow, empty_not_admin]
    · rw [if_neg h]
  · intro email
    cases email with
    | none => rfl
    | some e =>
      show (if strEmpty e then false
            else (getAdminEmails "").contains (jsToLower e)) = false
      by_cases h : strEmpty e
      · rw [if_pos h]
      · rw [if_neg h]
        rfl


/-- C1 (amended): every admin-gated mutating endpoint — book
create/update/patch/delete/bulk-delete and the request
approve/reject/fulfill transitions — answers any caller that is not an
authenticated admin, *including a caller with no identity at all*, with a
403 Forbidden error, and the store is returned unchanged (the write is
never even partially applied). -/
theorem C1_gate_denies_with_403_and_no_write
    (adminEnv : String) (user : Option User) (h : adminOk adminEnv user = false) :
    (∀ body newId now db, (createBook adminEnv user body newId now db).1.status = 403 ∧
      (createBook adminEnv user body newId now db).2 = db) ∧
    (∀ id body db, (updateBook adminEnv user id body db).1.status = 403 ∧
      (updateBook adminEnv user id body db).2 = db) ∧
    (∀ id body db, (patchBook adminEnv user id body db).1.status = 403 ∧
      (patchBook adminEnv user id body db).2 = db) ∧
    (∀ id db, (deleteBook adminEnv user id db).1.status = 403 ∧
      (deleteBook adminEnv user id db).2 = db) ∧
    (∀ ids db, (deleteMultipleBooks adminEnv user ids db).1.status = 403 ∧
      (deleteMultipleBooks adminEnv user ids db).2 = db) ∧
    (∀ id notes now db, (approveBookRequest adminEnv user id notes now db).1.status = 403 ∧
      (approveBookRequest adminEnv user id notes now db).2 = db) ∧
    (∀ id notes now db, (rejectBookRequest adminEnv user id notes now db).1.status = 403 ∧
      (rejectBookRequest adminEnv user id notes now db).2 = db) ∧
    (∀ id db, (markRequestFulfilled adminEnv user id db).1.status = 403 ∧
      (markRequestFulfilled adminEnv user id db).2 = db) := by
  refine ⟨?_, ?_, ?_, ?_, ?_, ?_, ?_, ?_⟩ <;> intros <;>
    simp [createBook, updateBook, patchBook, deleteBook, deleteMultipleBooks,
      approveBookRequest, rejectBookRequest, markRequestFulfilled, h, forbidden]

/-- C1 witness: the gate theorem at a concrete configuration and a
concrete authenticated non-admin caller. -/
theorem C1_gate_witness :
    (createBook "admin@easyreads.com" (some { email := some "user@x.com" })
      {} "b1" 0 []).1.status = 403 ∧
    (createBook "admin@easyreads.com" (some { email := some "user@x.com" })
      {} "b1" 0 []).2 = [] :=
  (C1_gate_denies_with_403_and_no_write "admin@easyreads.com"
    (some { email := some "user@x.com" }) (by decide)).1 {} "b1" 0 []

/-- C1 counterexample: the claim demands a 401 for a caller with no
authenticated identity, but `createBook` — wired in `bookRoutes.js` with
no middleware — answers 403 there. -/
theorem C1_counterexample_unauthenticated_gets_403_not_401 :
    (createBook "admin@easyreads.com" none {} "b1" 0 []).1.status = 403 ∧
    ¬ ((createBook "admin@easyreads.com" none {} "b1" 0 []).1.status = 401) := by
  decide

/-- C2: the `/book-requests` router's status route is reachable with no
identity whatsoever — the handler does not even take a caller — and it
moves a pending request to `approved`, answering 200.  (The README
documents this route as admin-only.) -/
theorem C2_router_status_change_without_gate :
    (routerPatchStatus "0123456789abcdef01234567" (some "approved") none 5 [c2Doc]).1.status = 200 ∧
    ((routerPatchStatus "0123456789abcdef01234567" (some "approved") none 5 [c2Doc]).2.map
      ReqDoc.status) = ["approved"] := by
  decide


/-- C4 (amended): every list endpoint that takes pagination query
parameters clamps the effective page to `max(1, page)` and the effective
limit into `[1,100]` — except the text-search endpoint, which applies the
raw parsed limit (default 20) and takes no page parameter at all, and the
popular-requests listing, which also passes the raw parsed limit through. -/
theorem C4_pagination_clamped_except_search :
    (∀ q db, pageLimitOf (getAllBooks q db) = some (pageNumOf q.page, limitNumOf 10 q.limit)) ∧
    (∀ g p l db, (strEmpty g || strEmpty (jsTrim g)) = false →
      pageLimitOf (getBooksByGenre g p l db) = some (pageNumOf p, limitNumOf 10 l)) ∧
    (∀ p l db, pageLimitOf (getAvailableBooks p l db) = some (pageNumOf p, limitNumOf 10 l)) ∧
    (∀ a p l db, (strEmpty a || strEmpty (jsTrim a)) = false →
      pageLimitOf (getBooksByAuthor a p l db) = some (pageNumOf p, limitNumOf 10 l)) ∧
    (∀ mn mx p l db, ¬ (max 0 (mn.getD 0) > min 5 (mx.getD 5)) →
      pageLimitOf (getBooksByRating mn mx p l db) = some (pageNumOf p, limitNumOf 10 l)) ∧
    (∀ mn mx p l db,
      pageLimitOf (getBooksByPriceRange mn mx p l db) = some (pageNumOf p, limitNumOf 10 l)) ∧
    (∀ y p l db, pageLimitOf (getBooksByYear (some y) p l db) = some (pageNumOf p, limitNumOf 10 l)) ∧
    (∀ lim db, (getTrendingBooks lim db).count.getD 0 ≤ (limitNumOf 10 lim).toNat) ∧
    (∀ lim db, (getFeaturedBooks lim db).count.getD 0 ≤ (limitNumOf 10 lim).toNat) ∧
    (∀ adminEnv user q db, adminOk adminEnv user = true →
      pageLimitOf (getBookRequests adminEnv user q db) =
        some (pageNumOf q.page, limitNumOf 10 q.limit)) ∧
    (∀ u p l db, optFalsy (User.email u) = false →
      pageLimitOf (getUserRequests (some u) p l db) = some (pageNumOf p, limitNumOf 10 l)) ∧
    (∀ p l sort db,
      pageLimitOf (getPendingRequests p l sort db) = some (pageNumOf p, limitNumOf 10 l)) ∧
    (∀ d l, 1 ≤ limitNumOf d l ∧ limitNumOf d l ≤ 100 ∧ 1 ≤ pageNumOf l) ∧
    (limitNumOf 10 (some 500) = 100 ∧ pageNumOf (some 0) = 1) := by
  refine ⟨?_, ?_, ?_, ?_, ?_, ?_, ?_, ?_, ?_, ?_, ?_, ?_, ?_, by decide⟩
  · intro q db
    simp [getAllBooks, pageLimitOf, pagFull]
  · intro g p l db h
    simp [getBooksByGenre, h, pageLimitOf, pagBasic]
  · intro p l db
    simp [getAvailableBooks, pageLimitOf, pagBasic]
  · intro a p l db h
    simp [getBooksByAuthor, h, pageLimitOf, pagBasic]
  · intro mn mx p l db h
    simp only [getBooksByRating]
    rw [if_neg h]
    simp [pageLimitOf, pagBasic]
  · intro mn mx p l db
    simp [getBooksByPriceRange, pageLimitOf, pagBasic]
  · intro y p l db
    simp [getBooksByYear, pageLimitOf, pagBasic]
  · intro lim db
    simp only [getTrendingBooks, Option.getD_some]
    exact List.length_take_le _ _
  · intro lim db
    simp only [getFeaturedBooks, Option.getD_some]
    exact List.length_take_le _ _
  · intro adminEnv user q db h
    simp [getBookRequests, h, pageLimitOf, pagFull]
  · intro u p l db h
    simp [getUserRequests, h, pageLimitOf, pagBasic]
  · intro p l sort db
    simp [getPendingRequests, pageLimitOf, pagBasic]
  · intro d l
    refine ⟨?_, ?_, ?_⟩ <;> simp [limitNumOf, pageNumOf]

/-- C4 witness: the clamp theorem applied at concrete query values,
discharging each endpoint guard. -/
theorem C4_clamp_witness :
    pageLimitOf (getBooksByGenre "Fiction" (some 0) (some 500) []) = some (1, 100) ∧
    pageLimitOf (getBooksByRating none none (some 0) (some 500) []) = some (1, 100) ∧
    pageLimitOf (getBookRequests "admin@easyreads.com"
      (some { email := some "admin@easyreads.com" }) {} []) = some (1, 10) ∧
    pageLimitOf (getUserRequests (some { email := some "reader@x.co" })
      (some 0) (some 500) []) = some (1, 100) := by
  refine ⟨?_, ?_, ?_, ?_⟩
  · rw [C4_pagination_clamped_except_search.2.1 "Fiction" (some 0) (some 500) [] (by decide)]
    decide
  · rw [C4_pagination_clamped_except_search.2.2.2.2.1 none none (some 0) (some 500) []
      (by decide)]
    decide
  · rw [C4_pagination_clamped_except_search.2.2.2.2.2.2.2.2.2.1 "admin@easyreads.com"
      (some { email := some "admin@easyreads.com" }) {} [] (by decide)]
    decide
  · rw [C4_pagination_clamped_except_search.2.2.2.2.2.2.2.2.2.2.1
      { email := some "reader@x.co" } (some 0) (some 500) [] (by decide)]
    decide

/-- C4 counterexample: the text-search endpoint with `limit=500` returns
101 documents from a 101-document store — the effective limit is not
clamped to 100 there. -/
theorem C4_counterexample_search_limit_unclamped :
    (searchBooks (some "b") (some 500) c4DB).count = some 101 ∧ ¬ (101 ≤ 100) := by
  exact ⟨by decide, by decide⟩


/-- If the search finds `r` and the rewrite keeps `r` matching, the same
search on the rewritten store finds `f r`. -/
theorem find?_updateWhere (p : α → Bool) (f : α → α) (l : List α) (r : α)
    (hfind : l.find? p = some r) (hpf : p (f r) = true) :
    (updateWhere p f l).find? p = some (f r) := by
  induction l with
  | nil => simp at hfind
  | cons x xs ih =>
    simp only [updateWhere, List.map_cons] at *
    by_cases hx : p x = true
    · rw [List.find?_cons_of_pos _ hx] at hfind
      obtain rfl : x = r := Option.some.inj hfind
      rw [if_pos hx]
      exact List.find?_cons_of_pos _ hpf
    · rw [List.find?_cons_of_neg _ hx] at hfind
      rw [if_neg hx, List.find?_cons_of_neg _ hx]
      exact ih hfind

/-- C5 (amended): on an existing request, approve and reject set the
corresponding status and stamp `respondedBy` with the acting admin's email
and `respondedAt` with the transition time; fulfill sets only
`status := "fulfilled"` and stamps neither field. -/
theorem C5_transitions_stamp_except_fulfill
    (adminEnv : String) (u : User) (h : adminOk adminEnv (some u) = true)
    (id : String) (hid : isValidObjectId id = true)
    (db : List Request) (r : Request) (hr : db.find? (fun x => x.id == id) = some r)
    (notes : Option String) (now : Int) :
    ((approveBookRequest adminEnv (some u) id notes now db).2.find? (fun x => x.id == id) =
        some (approvedDoc u.email notes now r) ∧
      (approvedDoc u.email notes now r).status = "approved" ∧
      (approvedDoc u.email notes now r).respondedBy = u.email ∧
      (approvedDoc u.email notes now r).respondedAt = some now) ∧
    (optBlank notes = false →
      (rejectBookRequest adminEnv (some u) id notes now db).2.find? (fun x => x.id == id) =
        some (rejectedDoc u.email (notes.getD "") now r) ∧
      (rejectedDoc u.email (notes.getD "") now r).status = "rejected" ∧
      (rejectedDoc u.email (notes.getD "") now r).respondedBy = u.email ∧
      (rejectedDoc u.email (notes.getD "") now r).respondedAt = some now) ∧
    ((markRequestFulfilled adminEnv (some u) id db).2.find? (fun x => x.id == id) =
        some (fulfilledDoc r) ∧
      fulfilledDoc r = { r with status := "fulfilled" }) := by
  have hp := List.find?_some (p := fun x : Request => x.id == id) hr
  refine ⟨⟨?_, rfl, rfl, rfl⟩, fun hb => ⟨?_, rfl, rfl, rfl⟩, ⟨?_, rfl⟩⟩
  · simp only [approveBookRequest, h, hid, Bool.not_true, Bool.false_eq_true, if_false, hr]
    exact find?_updateWhere _ _ db r hr hp
  · simp only [rejectBookRequest, h, hid, hb, Bool.not_true, Bool.false_eq_true, if_false, hr]
    exact find?_updateWhere _ _ db r hr hp
  · simp only [markRequestFulfilled, h, hid, Bool.not_true, Bool.false_eq_true, if_false, hr]
    exact find?_updateWhere _ _ db r hr hp

/-- C5 witness: the transition theorem at a concrete admin, request and
time. -/
theorem C5_transitions_witness :
    (approveBookRequest "admin@easyreads.com" (some c5Admin) "0123456789abcdef01234567"
        (some "ok") 7 [c5Req]).2.find?
        (fun x => x.id == "0123456789abcdef01234567") =
      some (approvedDoc c5Admin.email (some "ok") 7 c5Req) ∧
    (rejectBookRequest "admin@easyreads.com" (some c5Admin) "0123456789abcdef01234567"
        (some "ok") 7 [c5Req]).2.find?
        (fun x => x.id == "0123456789abcdef01234567") =
      some (rejectedDoc c5Admin.email "ok" 7 c5Req) := by
  have h5 := C5_transitions_stamp_except_fulfill "admin@easyreads.com" c5Admin (by decide)
    "0123456789abcdef01234567" (by decide) [c5Req] c5Req (by decide) (some "ok") 7
  exact ⟨h5.1.1, (h5.2.1 (by decide)).1⟩

/-- C5 counterexample: an admin fulfilling a pending request does change
its status, but `respondedBy` and `respondedAt` remain unset — the claim
says all three transitions stamp them. -/
theorem C5_counterexample_fulfill_does_not_stamp :
    ((markRequestFulfilled "admin@easyreads.com" (some c5Admin)
        "0123456789abcdef01234567" [c5Req]).2.map Request.status = ["fulfilled"]) ∧
    ((markRequestFulfilled "admin@easyreads.com" (some c5Admin)
        "0123456789abcdef01234567" [c5Req]).2.map Request.respondedBy = [none]) ∧
    ¬ ((markRequestFulfilled "admin@easyreads.com" (some c5Admin)
        "0123456789abcdef01234567" [c5Req]).2.map Request.respondedBy =
      [some "admin@easyreads.com"]) ∧
    ((markRequestFulfilled "admin@easyreads.com" (some c5Admin)
        "0123456789abcdef01234567" [c5Req]).2.map Request.respondedAt = [none]) := by
  refine ⟨by decide, by decide, by decide, by decide⟩


/-- C6: rejecting as an admin with a missing or whitespace-only
`adminNotes` reason yields a 400 validation error and an unchanged store
(whatever the id); with a real reason, an existing request becomes
`rejected` and records the trimmed reason in `adminNotes`. -/
theorem C6_reject_requires_nonempty_reason
    (adminEnv : String) (u : User) (h : adminOk adminEnv (some u) = true) :
    (∀ id notes now db, optBlank notes = true →
      (rejectBookRequest adminEnv (some u) id notes now db).1.status = 400 ∧
      (rejectBookRequest adminEnv (some u) id notes now db).2 = db) ∧
    (∀ id notes now db r, isValidObjectId id = true → optBlank notes = false →
      db.find? (fun x => x.id == id) = some r →
      (rejectBookRequest adminEnv (some u) id notes now db).2.find? (fun x => x.id == id) =
        some (rejectedDoc u.email (notes.getD "") now r) ∧
      (rejectedDoc u.email (notes.getD "") now r).status = "rejected" ∧
      (rejectedDoc u.email (notes.getD "") now r).adminNotes =
        some (jsTrim (notes.getD ""))) := by
  constructor
  · intro id notes now db hb
    by_cases hid : isValidObjectId id = true
    · simp [rejectBookRequest, h, hid, hb, badRequest]
    · simp [rejectBookRequest, h, hid, badRequest]
  · intro id notes now db r hid hb hr
    have hp := List.find?_some (p := fun x : Request => x.id == id) hr
    refine ⟨?_, rfl, rfl⟩
    simp only [rejectBookRequest, h, hid, hb, Bool.not_true, Bool.false_eq_true, if_false, hr]
    exact find?_updateWhere _ _ db r hr hp

/-- C6 witness: a blank reason is refused with 400 and no write; a real
reason lands trimmed in the stored rejected request. -/
theorem C6_reject_witness :
    (rejectBookRequest "admin@easyreads.com" (some c5Admin) "0123456789abcdef01234567"
      (some "   ") 7 [c5Req]).1.status = 400 ∧
    (rejectBookRequest "admin@easyreads.com" (some c5Admin) "0123456789abcdef01234567"
      (some "   ") 7 [c5Req]).2 = [c5Req] ∧
    (rejectBookRequest "admin@easyreads.com" (some c5Admin) "0123456789abcdef01234567"
        (some " no stock ") 7 [c5Req]).2.find?
        (fun x => x.id == "0123456789abcdef01234567") =
      some (rejectedDoc c5Admin.email " no stock " 7 c5Req) := by
  have h6 := C6_reject_requires_nonempty_reason "admin@easyreads.com" c5Admin (by decide)
  refine ⟨(h6.1 _ (some "   ") 7 [c5Req] (by decide)).1,
    (h6.1 _ (some "   ") 7 [c5Req] (by decide)).2,
    (h6.2 _ (some " no stock ") 7 [c5Req] c5Req (by decide) (by decide) (by decide)).1⟩

/-- A non-falsy optional string stays non-empty under `getD ""`. -/
theorem strEmpty_getD_of_not_falsy (o : Option String) (h : optFalsy o = false) :
    strEmpty (o.getD "") = false := by
  cases o with
  | none => simp [optFalsy] at h
  | some v => simpa [optFalsy] using h

/-- C7 (amended): on the controller sub-API (`POST /requests`) a requester
email rejected by the fixed pattern always yields a 400 validation error
and no document; the router sub-API (`POST /book-requests`) runs only the
schema validation — required fields, status enum, defaults — so it
creates a document for any non-empty requester email, malformed or not. -/
theorem C7_email_pattern_controller_only :
    (∀ body newId now db, emailRegexTest ((body : CreateRequestBody).requesterEmail.getD "") = false →
      (createBookRequest body newId now db).1.status = 400 ∧
      (createBookRequest body newId now db).2 = db) ∧
    (∀ body newId now db, optFalsy ((body : RouterCreateBody).bookName) = false →
      optFalsy body.author = false → optFalsy body.requestedBy = false →
      body.status = none →
      (routerCreateRequest body newId now db).1.status = 201 ∧
      (routerCreateRequest body newId now db).2.length = db.length + 1) := by
  constructor
  · intro body newId now db hreg
    by_cases h1 : optBlank body.title = true
    · simp [createBookRequest, h1, badRequest]
    · by_cases h2 : optBlank body.author = true
      · simp [createBookRequest, h1, h2, badRequest]
      · by_cases h3 : optBlank body.requesterEmail = true
        · simp [createBookRequest, h1, h2, h3, badRequest]
        · simp [createBookRequest, h1, h2, h3, hreg, badRequest]
  · intro body newId now db hb ha hr hs
    have hv : reqDocValid
        { id := newId
          bookName := body.bookName.getD ""
          author := body.author.getD ""
          ISBN := body.ISBN
          requestedBy := body.requestedBy.getD ""
          requestedByUid := body.requestedByUid
          status := body.status.getD "pending"
          requestedAt := now } = true := by
      simp [reqDocValid, hs, validStatus, strEmpty_getD_of_not_falsy _ hb,
        strEmpty_getD_of_not_falsy _ ha, strEmpty_getD_of_not_falsy _ hr]
    simp [routerCreateRequest, hv]

/-- C7 witness: the two halves at concrete bodies. -/
theorem C7_email_witness :
    (createBookRequest c7CtrlBody "r1" 3 []).1.status = 400 ∧
    (createBookRequest c7CtrlBody "r1" 3 []).2 = [] ∧
    (routerCreateRequest c7Body "r1" 3 []).1.status = 201 := by
  have h7 := C7_email_pattern_controller_only
  refine ⟨(h7.1 c7CtrlBody "r1" 3 [] (by decide)).1, (h7.1 c7CtrlBody "r1" 3 [] (by decide)).2,
    (h7.2 c7Body "r1" 3 [] (by decide) (by decide) (by decide) rfl).1⟩

/-- C7 counterexample: the router creation endpoint accepts a requester
email the fixed pattern rejects and persists the document — the claim
says every request-creation endpoint answers 400 there and stores
nothing. -/
theorem C7_counterexample_router_accepts_malformed_email :
    emailRegexTest "not-an-email" = false ∧
    (routerCreateRequest c7Body "0123456789abcdef01234567" 3 []).1.status = 201 ∧
    (routerCreateRequest c7Body "0123456789abcdef01234567" 3 []).2.length = 1 := by
  refine ⟨by decide, by decide, by decide⟩


/-- When nothing matches, the in-place rewrite is the identity. -/
theorem updateWhere_of_none (p : α → Bool) (f : α → α) (l : List α)
    (h : l.find? p = none) : updateWhere p f l = l := by
  induction l with
  | nil => rfl
  | cons x xs ih =>
    rw [List.find?_eq_none] at h
    have hx : p x = false := by simpa using h x (List.mem_cons_self x xs)
    simp only [updateWhere, List.map_cons, hx, Bool.false_eq_true, if_false]
    have := ih (List.find?_eq_none.mpr fun y hy => h y (List.mem_cons_of_mem x hy))
    simp only [updateWhere] at this
    rw [this]

/-- One upvote call rewrites the store pointwise — whether or not the id
is present. -/
theorem upvote_snd (id : String) (hid : isValidObjectId id = true) (db : List Request) :
    (upvoteRequest id db).2 =
      db.map (fun r => if r.id == id then { r with upvotes := r.upvotes + 1 } else r) := by
  simp only [upvoteRequest, hid, Bool.not_true, Bool.false_eq_true, if_false]
  cases hfind : db.find? (fun r => r.id == id) with
  | none =>
    simp only [hfind]
    exact (updateWhere_of_none _ _ db hfind).symm
  | some r =>
    simp only [hfind]
    rfl

/-- C8: for any id of valid format, performing the public upvote
operation `n` times rewrites the store by adding exactly `n` to the
`upvotes` counter of the matching request, leaving every other field and
every other request unchanged; the operation takes no caller identity at
all. -/
theorem C8_upvote_n_times_adds_n (id : String) (hid : isValidObjectId id = true)
    (n : Nat) (db : List Request) :
    upvoteIter id n db =
      db.map (fun r =>
        if r.id == id then { r with upvotes := r.upvotes + (n : Int) } else r) := by
  induction n generalizing db with
  | zero =>
    show db = _
    have hf : ∀ r ∈ db,
        (if r.id == id then { r with upvotes := r.upvotes + ((0:Nat) : Int) } else r) = r := by
      intro r _
      split <;> simp
    rw [List.map_congr_left hf]
    exact (List.map_id db).symm
  | succ n ih =>
    show upvoteIter id n (upvoteRequest id db).2 = _
    rw [upvote_snd id hid db, ih, List.map_map]
    refine List.map_congr_left ?_
    intro r _
    by_cases hr : (r.id == id) = true
    · simp [hr, Function.comp, Request.mk.injEq]
      omega
    · simp [hr, Function.comp]

/-- C8 witness: three anonymous upvotes on a one-request store add
exactly three. -/
theorem C8_upvote_witness :
    upvoteIter "0123456789abcdef01234567" 3 [c8Req] = [{ c8Req with upvotes := 3 }] := by
  rw [C8_upvote_n_times_adds_n "0123456789abcdef01234567" (by decide) 3 [c8Req]]
  decide


/-- C9: with no OpenAI key configured, the chat endpoint on a non-blank
message never consults the external completion service — the result is
independent of the oracle and `networkCalled` is false — and returns
exactly the canned response the fixed keyword table selects for the
trimmed message; in particular the same message always yields the same
response. -/
theorem C9_chat_fallback_table (k : Option String) (hk : optFalsy k = true)
    (o₁ o₂ : String → String) (m : String) (hm : strEmpty (jsTrim m) = false) :
    chatWithAI k o₁ (some m) =
      { status := 200, success := true,
        response := some (generateAIResponse (jsTrim m)), networkCalled := false } ∧
    chatWithAI k o₁ (some m) = chatWithAI k o₂ (some m) := by
  constructor <;> simp [chatWithAI, hm, hk]

/-- C9 witness: the message `hello` yields the greeting reply with no key
and no network, whatever the external service would have said. -/
theorem C9_chat_witness :
    chatWithAI none (fun _ => "external") (some "hello") =
      { status := 200, success := true, response := some aiGreetingReply,
        networkCalled := false } := by
  rw [(C9_chat_fallback_table none (by decide) (fun _ => "external") (fun _ => "x")
    "hello" (by decide)).1]
  decide

/-- Related elements answer congruent filters identically, so filtering
preserves `Forall₂`. -/
theorem forall₂_filter_congr {R : α → α → Prop} {p q : α → Bool}
    (hpq : ∀ a b, R a b → p a = q b) :
    ∀ {l₁ l₂ : List α}, List.Forall₂ R l₁ l₂ →
      List.Forall₂ R (l₁.filter p) (l₂.filter q) := by
  intro l₁ l₂ h
  induction h with
  | nil => exact .nil
  | cons hab htl ih =>
    rename_i a b t₁ t₂
    simp only [List.filter_cons]
    rw [hpq a b hab]
    by_cases hq : q b = true
    · rw [if_pos hq, if_pos hq]
      exact .cons hab ih
    · rw [if_neg hq, if_neg hq]
      exact ih

/-- Sorted insertion preserves `Forall₂` when related elements compare
identically. -/
theorem forall₂_insertSorted {R : α → α → Prop} {le : α → α → Bool}
    (hle : ∀ a b a₂ b₂, R a a₂ → R b b₂ → le a b = le a₂ b₂)
    {x y : α} (hxy : R x y) :
    ∀ {l₁ l₂ : List α}, List.Forall₂ R l₁ l₂ →
      List.Forall₂ R (insertSorted le x l₁) (insertSorted le y l₂) := by
  intro l₁ l₂ h
  induction h with
  | nil => exact .cons hxy .nil
  | cons hab htl ih =>
    rename_i a b t₁ t₂
    simp only [insertSorted]
    rw [hle x a y b hxy hab]
    by_cases hc : le y b = true
    · rw [if_pos hc, if_pos hc]
      exact .cons hxy (.cons hab htl)
    · rw [if_neg hc, if_neg hc]
      exact .cons hab ih

/-- The insertion sort preserves `Forall₂` under the same condition. -/
theorem forall₂_sortByB {R : α → α → Prop} {le : α → α → Bool}
    (hle : ∀ a b a₂ b₂, R a a₂ → R b b₂ → le a b = le a₂ b₂) :
    ∀ {l₁ l₂ : List α}, List.Forall₂ R l₁ l₂ →
      List.Forall₂ R (sortByB le l₁) (sortByB le l₂) := by
  intro l₁ l₂ h
  induction h with
  | nil => exact .nil
  | cons hab htl ih =>
    rename_i a b t₁ t₂
    simp only [sortByB, List.foldr_cons] at *
    exact forall₂_insertSorted hle hab ih

/-- Mapping a function that cannot distinguish related elements gives
equal lists. -/
theorem map_eq_of_forall₂ {R : α → α → Prop} {f : α → β}
    (hf : ∀ a b, R a b → f a = f b) :
    ∀ {l₁ l₂ : List α}, List.Forall₂ R l₁ l₂ → l₁.map f = l₂.map f := by
  intro l₁ l₂ h
  induction h with
  | nil => rfl
  | cons hab htl ih =>
    simp only [List.map_cons, ih, hf _ _ hab]

/-- The public projection cannot distinguish requests that differ only in
`adminNotes`. -/
theorem toPendingView_congr (a b : Request) (h : ObsEqReq a b) :
    toPendingView a = toPendingView b := by
  have ha : toPendingView a = toPendingView (eraseNotes a) := rfl
  have hb : toPendingView b = toPendingView (eraseNotes b) := rfl
  have he : eraseNotes a = eraseNotes b := h
  rw [ha, hb, he]

/-- `status` cannot distinguish requests that differ only in
`adminNotes`. -/
theorem status_congr (a b : Request) (h : ObsEqReq a b) : a.status = b.status := by
  have ha : a.status = (eraseNotes a).status := rfl
  have hb : b.status = (eraseNotes b).status := rfl
  have he : eraseNotes a = eraseNotes b := h
  rw [ha, hb, he]

/-- Erasing `adminNotes` does not change any sort key other than the
`adminNotes` one. -/
theorem reqSortVal_eraseNotes (field : String) (hf : (field == "adminNotes") = false)
    (a : Request) : reqSortVal field (eraseNotes a) = reqSortVal field a := by
  simp only [reqSortVal, eraseNotes, hf, Bool.false_eq_true, if_false]

/-- On any sort field other than `adminNotes`, related requests have the
same sort key. -/
theorem reqSortVal_congr (field : String) (hf : (field == "adminNotes") = false)
    {a b : Request} (h : ObsEqReq a b) : reqSortVal field a = reqSortVal field b := by
  have he : eraseNotes a = eraseNotes b := h
  rw [← reqSortVal_eraseNotes field hf a, ← reqSortVal_eraseNotes field hf b, he]

/-- C10 (amended): the public pending listing strips `adminNotes` from
every returned document, and two stores that differ only in `adminNotes`
produce identical responses for every query whose sort parameter does not
name `adminNotes`; sorting by the hidden field itself, however, still
reorders the output by the secret values. -/
theorem C10_pending_independent_of_adminNotes
    (page limit : Option Int) (sort : Option String)
    (hs : ((parseSortParam (sort.getD "-upvotes")).1 == "adminNotes") = false)
    (db₁ db₂ : List Request) (hdb : List.Forall₂ ObsEqReq db₁ db₂) :
    getPendingRequests page limit sort db₁ = getPendingRequests page limit sort db₂ := by
  have hfil : List.Forall₂ ObsEqReq (db₁.filter (fun r => r.status == "pending"))
      (db₂.filter (fun r => r.status == "pending")) :=
    forall₂_filter_congr (fun a b hab => by rw [status_congr a b hab]) hdb
  have hsorted : List.Forall₂ ObsEqReq
      (sortRequests (sort.getD "-upvotes") (db₁.filter (fun r => r.status == "pending")))
      (sortRequests (sort.getD "-upvotes") (db₂.filter (fun r => r.status == "pending"))) := by
    refine forall₂_sortByB ?_ hfil
    intro a b a₂ b₂ ha hb
    by_cases hd : (parseSortParam (sort.getD "-upvotes")).2 = true
    · simp only [hd, if_true]
      rw [reqSortVal_congr _ hs ha, reqSortVal_congr _ hs hb]
    · simp only [hd, Bool.false_eq_true, if_false]
      rw [reqSortVal_congr _ hs ha, reqSortVal_congr _ hs hb]
  have hcut := List.forall₂_take ((limitNumOf 10 limit).toNat)
    (List.forall₂_drop (skipOf (pageNumOf page) (limitNumOf 10 limit)) hsorted)
  have hmap := map_eq_of_forall₂ (fun a b hab => toPendingView_congr a b hab) hcut
  have hlen := hfil.length_eq
  simp only [getPendingRequests]
  rw [hmap, hlen]

/-- C10 witness: the hiding theorem at two concrete stores differing only
in their `adminNotes`, under the default sort. -/
theorem C10_pending_witness :
    getPendingRequests none none none c10dbX = getPendingRequests none none none c10dbY := by
  refine C10_pending_independent_of_adminNotes none none none (by decide) c10dbX c10dbY ?_
  exact .cons (by show eraseNotes _ = eraseNotes _; decide)
    (.cons (by show eraseNotes _ = eraseNotes _; decide) .nil)

/-- C10 counterexample: with `sort=adminNotes` the two stores — equal up
to `adminNotes` — produce observably different responses: the secret
values drive the order of the public listing. -/
theorem C10_counterexample_sort_by_adminNotes_leaks :
    List.Forall₂ ObsEqReq c10dbX c10dbY ∧
    getPendingRequests none none (some "adminNotes") c10dbX ≠
      getPendingRequests none none (some "adminNotes") c10dbY := by
  constructor
  · exact .cons (by show eraseNotes _ = eraseNotes _; decide)
      (.cons (by show eraseNotes _ = eraseNotes _; decide) .nil)
  · decide

end EasyReads
